import Mathlib

/-!
Shallow embedding of the Frontend_Rocketrybox data-shaping code:
  * `src/lib/api/tracking.ts` — mock tracking module (`dummyTrackingData`,
    `generateRandomTrackingInfo`, `fetchTrackingInfo`);
  * `src/services/api/index.ts` — axios response interceptor;
  * the NDR details page — `fetchNDRDetails` server-payload transformation.

Modelling conventions:
  * JS `Date` values are represented by their epoch-millisecond payload
    (an `Int`), the value the `Date` constructor receives before any
    locale rendering.  Two `Date`s built from equal millisecond values
    render to equal strings, so equalities of these `Int`s transfer to
    the literal timestamp strings.
  * `Math.floor(Math.random() * n)` draws are passed in as explicit
    `Fin n` arguments; the `while (destIndex === originIndex)` loop of
    the generator is represented by its postcondition
    `destIndex ≠ originIndex`, supplied as a hypothesis.
  * Module-level constants that call `Date.now()` at module evaluation
    time (the canned `dummyTrackingData`) take the load-time clock
    `loadNow`, while code that calls `Date.now()` inside a function body
    takes the call-time clock `callNow`.
  * JS `x || y` defaulting on strings is `if x = "" then y else x`
    (the only falsy string is `""`); on optional fields it is a `match`
    on `Option`.
-/

namespace Tracking

/-- One entry of a shipment's event list (`TrackingEvent` in tracking.ts);
`timestamp` is the epoch-millisecond value of the `Date`. -/
structure TrackingEvent where
  status : String
  location : String
  timestamp : Int
  description : Option String
deriving Repr, DecidableEq

/-- A tracking record (`TrackingInfo` in tracking.ts); `expectedDelivery`
is the epoch-millisecond value of the `Date`. -/
structure TrackingInfo where
  awbNumber : String
  currentStatus : String
  expectedDelivery : Int
  origin : String
  destination : String
  courier : String
  events : List TrackingEvent
deriving Repr, DecidableEq

/-- Milliseconds in one hour, the `60 * 60 * 1000` factor of tracking.ts. -/
def hourMs : Int := 60 * 60 * 1000

/-- The canned records of tracking.ts: a module-level object literal, so
every `Date.now()` inside it is evaluated once, at module load time
`loadNow`.  Property lookup `dummyTrackingData[awbNumber]` is the
`Option`-valued function below. -/
def dummyTrackingData (loadNow : Int) : String → Option TrackingInfo := fun key =>
  if key = "1234567890" then some
    { awbNumber := "1234567890"
      currentStatus := "In Transit"
      expectedDelivery := loadNow + 2 * 24 * hourMs
      origin := "Mumbai, Maharashtra"
      destination := "Bangalore, Karnataka"
      courier := "RocketryBox Express"
      events :=
        [ { status := "In Transit", location := "Hyderabad, Telangana",
            timestamp := loadNow - 12 * hourMs,
            description := some "Shipment departed from transit facility" },
          { status := "In Transit", location := "Pune, Maharashtra",
            timestamp := loadNow - 24 * hourMs,
            description := some "Shipment arrived at transit facility" },
          { status := "Shipped", location := "Mumbai, Maharashtra",
            timestamp := loadNow - 48 * hourMs,
            description := some "Shipment picked up from sender" } ] }
  else if key = "9876543210" then some
    { awbNumber := "9876543210"
      currentStatus := "Delivered"
      expectedDelivery := loadNow - 1 * 24 * hourMs
      origin := "Delhi, Delhi"
      destination := "Jaipur, Rajasthan"
      courier := "RocketryBox Premium"
      events :=
        [ { status := "Delivered", location := "Jaipur, Rajasthan",
            timestamp := loadNow - 6 * hourMs,
            description := some "Package delivered to recipient" },
          { status := "Out for Delivery", location := "Jaipur, Rajasthan",
            timestamp := loadNow - 12 * hourMs,
            description := some "Package is out for delivery" },
          { status := "In Transit", location := "Gurugram, Haryana",
            timestamp := loadNow - 24 * hourMs,
            description := some "Shipment in transit to destination" },
          { status := "Shipped", location := "Delhi, Delhi",
            timestamp := loadNow - 48 * hourMs,
            description := some "Shipment picked up from sender" } ] }
  else if key = "5678901234" then some
    { awbNumber := "5678901234"
      currentStatus := "Out for Delivery"
      expectedDelivery := loadNow
      origin := "Chennai, Tamil Nadu"
      destination := "Coimbatore, Tamil Nadu"
      courier := "RocketryBox Standard"
      events :=
        [ { status := "Out for Delivery", location := "Coimbatore, Tamil Nadu",
            timestamp := loadNow - 4 * hourMs,
            description := some "Package is out for delivery" },
          { status := "In Transit", location := "Salem, Tamil Nadu",
            timestamp := loadNow - 18 * hourMs,
            description := some "Shipment in transit to destination" },
          { status := "Shipped", location := "Chennai, Tamil Nadu",
            timestamp := loadNow - 36 * hourMs,
            description := some "Shipment picked up from sender" } ] }
  else none

/-- One entry of the fixed 10-city list of `generateRandomTrackingInfo`. -/
structure City where
  name : String
  state : String
deriving Repr, DecidableEq

/-- The fixed 10-city list of `generateRandomTrackingInfo`. -/
def cities : List City :=
  [ ⟨"Mumbai", "Maharashtra"⟩,
    ⟨"Delhi", "Delhi"⟩,
    ⟨"Bangalore", "Karnataka"⟩,
    ⟨"Hyderabad", "Telangana"⟩,
    ⟨"Chennai", "Tamil Nadu"⟩,
    ⟨"Kolkata", "West Bengal"⟩,
    ⟨"Ahmedabad", "Gujarat"⟩,
    ⟨"Pune", "Maharashtra"⟩,
    ⟨"Jaipur", "Rajasthan"⟩,
    ⟨"Lucknow", "Uttar Pradesh"⟩ ]

theorem cities_length : cities.length = 10 := rfl

/-- `cities[i]` for an in-range index, as produced by
`Math.floor(Math.random() * cities.length)`. -/
def cityAt (i : Fin 10) : City :=
  cities.get ⟨i.val, by simp [cities_length]⟩

/-- The template-literal rendering of a city used for `location`,
`origin` and `destination` fields. -/
def cityString (c : City) : String := c.name ++ ", " ++ c.state

/-- `generateRandomTrackingInfo` of tracking.ts.  `callNow` is the
`Date.now()` captured in the body; `originIndex`, `destIndex` are the
resolved origin/destination draws (after the rejection loop),
`transitDraw` is the `Math.floor(Math.random() * 3)` draw so that
`transitPoints = transitDraw + 1`, and `interDraw i` is the
`getRandomCity` draw of loop iteration `i`.  The `events.unshift` loop
is the `foldl` below: each iteration conses its event in front. -/
def generateRandomTrackingInfo (awbNumber : String) (callNow : Int)
    (originIndex destIndex : Fin 10) (transitDraw : Fin 3)
    (interDraw : Nat → Fin 10) : TrackingInfo :=
  let origin := cityAt originIndex
  let destination := cityAt destIndex
  let baseEvents : List TrackingEvent :=
    [ { status := "Shipped"
        location := cityString origin
        timestamp := callNow - 48 * hourMs
        description := some "Shipment picked up from sender" } ]
  let transitPoints := transitDraw.val + 1
  let events := (List.range transitPoints).foldl
    (fun acc i =>
      { status := "In Transit"
        location := cityString (cityAt (interDraw i))
        timestamp := callNow - (24 - (i : Int) * 8) * hourMs
        description := some "Shipment in transit to destination" } :: acc)
    baseEvents
  { awbNumber := awbNumber
    currentStatus := "In Transit"
    expectedDelivery := callNow + 3 * 24 * hourMs
    origin := cityString origin
    destination := cityString destination
    courier := "RocketryBox Express"
    events := events }

/-- The `^\d{10}$` validation of `fetchTrackingInfo` (the separate
`!awbNumber` emptiness test is subsumed: `""` has length 0). -/
def isValidAWB (s : String) : Bool :=
  s.length = 10 && s.data.all (fun c => c.isDigit)

/-- The failure of `fetchTrackingInfo`'s validation branch. -/
inductive FetchError where
  | invalidFormat
deriving Repr, DecidableEq

/-- `fetchTrackingInfo` of tracking.ts: validate, then canned lookup,
then random generation.  The canned table was built at module load time
`loadNow`; the generator runs at call time `callNow`.  The JS
`dummy || generate` uses object truthiness, i.e. the canned record wins
whenever present. -/
def fetchTrackingInfo (loadNow callNow : Int) (awbNumber : String)
    (originIndex destIndex : Fin 10) (transitDraw : Fin 3)
    (interDraw : Nat → Fin 10) : Except FetchError TrackingInfo :=
  if isValidAWB awbNumber then
    match dummyTrackingData loadNow awbNumber with
    | some info => .ok info
    | none => .ok (generateRandomTrackingInfo awbNumber callNow
        originIndex destIndex transitDraw interDraw)
  else
    .error .invalidFormat

end Tracking

namespace ApiClient

/-- The browser-global state touched by the response interceptor of
`src/services/api/index.ts`: the `localStorage` entry under the fixed
key `auth_token`, and `window.location.href`. -/
structure BrowserState where
  authToken : Option String
  href : String
deriving Repr, DecidableEq

/-- An axios failure as seen by the error arm of the interceptor:
`error.response?.status` (the optional chain makes the status itself
optional). -/
structure AxiosError where
  status : Option Nat
deriving Repr, DecidableEq

/-- The success arm `(response) => response.data`: strip the transport
envelope and return only the body. -/
structure AxiosResponse (α : Type) where
  data : α

def responseSuccessInterceptor {α : Type} (r : AxiosResponse α) : α :=
  r.data

/-- The error arm of `api.interceptors.response.use`: on status 401,
remove `auth_token` from storage and set `window.location.href` to
`/login`; in every case return `Promise.reject(error)`, modelled as
handing back the original error alongside the updated browser state. -/
def responseErrorInterceptor (e : AxiosError) (s : BrowserState) :
    BrowserState × AxiosError :=
  if e.status = some 401 then
    ({ s with authToken := none, href := "/login" }, e)
  else
    (s, e)

end ApiClient

namespace NDR

/-- One element of the server's `attempt_history`. -/
structure ServerAttempt where
  date : String
  time : String
  status : String
  reason : String
  agent_remarks : Option String
deriving Repr, DecidableEq

/-- The server's optional `current_location` payload. -/
structure ServerLocation where
  lat : ℚ
  lng : ℚ
deriving Repr, DecidableEq

/-- The server's `delivery_address` payload; `addressLine2` and `email`
may be absent. -/
structure ServerAddress where
  fullName : String
  addressLine1 : String
  addressLine2 : Option String
  city : String
  state : String
  pincode : String
  contactNumber : String
  email : Option String
deriving Repr, DecidableEq

/-- One product line item, copied through unchanged by the transform. -/
structure Product where
  name : String
  sku : String
  quantity : Nat
  price : ℚ
  image : String
deriving Repr, DecidableEq

/-- The `data.data` envelope of `GET /api/v2/seller/ndr/{id}`. -/
structure ServerNDRData where
  awb : String
  order_id : String
  order_date : String
  courier_name : String
  customer_name : String
  attempts : Nat
  attempt_history : List ServerAttempt
  status : String
  ndr_reason : String
  recommended_action : String
  current_location : Option ServerLocation
  delivery_address : ServerAddress
  products : Option (List Product)
deriving Repr, DecidableEq

/-- A geocoordinate of the view model. -/
structure Coord where
  lat : ℚ
  lng : ℚ
deriving Repr, DecidableEq

/-- One delivery attempt of the view model. -/
structure DeliveryAttempt where
  date : String
  time : String
  status : String
  reason : String
  comments : String
deriving Repr, DecidableEq

/-- The customer block of the view model. -/
structure CustomerDetails where
  name : String
  address1 : String
  address2 : String
  city : String
  state : String
  pincode : String
  country : String
  phone : String
  email : String
deriving Repr, DecidableEq

/-- The `NDRDetails` view model of the NDR details page. -/
structure NDRDetails where
  awb : String
  orderNo : String
  orderDate : String
  courier : String
  customer : String
  attempts : Nat
  lastAttemptDate : String
  status : String
  reason : String
  action : String
  currentLocation : Coord
  deliveryAttempts : List DeliveryAttempt
  customerDetails : CustomerDetails
  products : List Product
deriving Repr, DecidableEq

/-- The transformation inside `fetchNDRDetails` that reshapes the server
payload into `NDRDetails` (the object literal passed to
`setNdrDetails`).  JS defaulting is rendered faithfully:
`attempt_history[0]?.date || '-'` is `'-'` when the history is empty or
its first `date` is the empty string; `current_location?.lat || 0`
falls back to `0` when the location is absent (a present `lat` of `0`
also yields `0`, which is the same value); `x || ''` on an optional
string is `Option.getD _ ""` since `some "" || ''` is `''` as well. -/
def transformNDR (d : ServerNDRData) : NDRDetails :=
  { awb := d.awb
    orderNo := d.order_id
    orderDate := d.order_date
    courier := d.courier_name
    customer := d.customer_name
    attempts := d.attempts
    lastAttemptDate :=
      match d.attempt_history with
      | [] => "-"
      | a :: _ => if a.date = "" then "-" else a.date
    status := d.status
    reason := d.ndr_reason
    action := d.recommended_action
    currentLocation :=
      { lat := match d.current_location with
          | none => 0
          | some l => l.lat
        lng := match d.current_location with
          | none => 0
          | some l => l.lng }
    deliveryAttempts := d.attempt_history.map (fun a =>
      { date := a.date
        time := a.time
        status := a.status
        reason := a.reason
        comments := a.agent_remarks.getD "" })
    customerDetails :=
      { name := d.delivery_address.fullName
        address1 := d.delivery_address.addressLine1
        address2 := d.delivery_address.addressLine2.getD ""
        city := d.delivery_address.city
        state := d.delivery_address.state
        pincode := d.delivery_address.pincode
        country := "India"
        phone := d.delivery_address.contactNumber
        email := d.delivery_address.email.getD "" }
    products := d.products.getD [] }

/-- A concrete delivery address with the optional fields absent. -/
def sampleAddress : ServerAddress :=
  { fullName := "Asha Rao", addressLine1 := "12 MG Road", addressLine2 := none,
    city := "Bengaluru", state := "Karnataka", pincode := "560001",
    contactNumber := "9999999999", email := none }

/-- A concrete server payload with empty attempt history and with the
optional location, second address line and email absent. -/
def samplePayload : ServerNDRData :=
  { awb := "1234567890", order_id := "ORD-1", order_date := "2025-01-01",
    courier_name := "Blue Dart", customer_name := "Asha Rao", attempts := 2,
    attempt_history := [], status := "Action Required",
    ndr_reason := "Address issue", recommended_action := "Reschedule",
    current_location := none, delivery_address := sampleAddress,
    products := none }

/-- A delivery attempt whose `date` field is the empty string. -/
def emptyDateAttempt : ServerAttempt :=
  { date := "", time := "10:00", status := "Failed",
    reason := "Customer unavailable", agent_remarks := none }

/-- `samplePayload` with a single attempt whose date is empty. -/
def emptyDatePayload : ServerNDRData :=
  { samplePayload with attempt_history := [emptyDateAttempt] }

end NDR

namespace Tracking

/-- The 10 formatted city strings of the generator are pairwise
distinct, so distinct indices give distinct origin/destination
strings. -/
theorem cityString_ne : ∀ i j : Fin 10, i ≠ j →
    cityString (cityAt i) ≠ cityString (cityAt j) := by decide

end Tracking

/-- C1: for every valid 10-digit AWB matching none of the three canned
keys, `fetchTrackingInfo` returns the synthesized record, whose origin
and destination strings are distinct, whose event list is non-empty and
strictly ordered by descending timestamp, whose final element is a
"Shipped" event timestamped exactly 48 hours before the generation
clock, whose current status is "In Transit", and whose expected
delivery is 72 hours after the generation clock. -/
theorem C1_random_tracking_record_shape (loadNow callNow : Int)
    (awbNumber : String) (o d : Fin 10) (td : Fin 3) (f : Nat → Fin 10)
    (hvalid : Tracking.isValidAWB awbNumber = true)
    (h1 : awbNumber ≠ "1234567890") (h2 : awbNumber ≠ "9876543210")
    (h3 : awbNumber ≠ "5678901234") (hod : d ≠ o) :
    Tracking.fetchTrackingInfo loadNow callNow awbNumber o d td f =
      .ok (Tracking.generateRandomTrackingInfo awbNumber callNow o d td f) ∧
    (Tracking.generateRandomTrackingInfo awbNumber callNow o d td f).origin ≠
      (Tracking.generateRandomTrackingInfo awbNumber callNow o d td f).destination ∧
    (Tracking.generateRandomTrackingInfo awbNumber callNow o d td f).events ≠ [] ∧
    List.Chain' (fun a b => b.timestamp < a.timestamp)
      (Tracking.generateRandomTrackingInfo awbNumber callNow o d td f).events ∧
    (∃ e, (Tracking.generateRandomTrackingInfo awbNumber callNow o d td f).events.getLast? =
        some e ∧ e.status = "Shipped" ∧
        e.timestamp = callNow - 48 * Tracking.hourMs) ∧
    (Tracking.generateRandomTrackingInfo awbNumber callNow o d td f).currentStatus =
      "In Transit" ∧
    (Tracking.generateRandomTrackingInfo awbNumber callNow o d td f).expectedDelivery =
      callNow + 72 * Tracking.hourMs := by
  refine ⟨?_, ?_, ?_, ?_, ?_, ?_, ?_⟩
  · simp [Tracking.fetchTrackingInfo, hvalid, Tracking.dummyTrackingData, h1, h2, h3]
  · simpa [Tracking.generateRandomTrackingInfo] using
      Tracking.cityString_ne o d (fun h => hod h.symm)
  · fin_cases td <;>
      simp [Tracking.generateRandomTrackingInfo, List.range_succ]
  · fin_cases td <;>
      simp [Tracking.generateRandomTrackingInfo, List.range_succ, Tracking.hourMs]
  · exact ⟨{ status := "Shipped",
             location := Tracking.cityString (Tracking.cityAt o),
             timestamp := callNow - 48 * Tracking.hourMs,
             description := some "Shipment picked up from sender" },
           by fin_cases td <;>
             simp [Tracking.generateRandomTrackingInfo, List.range_succ],
           rfl, rfl⟩
  · simp [Tracking.generateRandomTrackingInfo]
  · simp [Tracking.generateRandomTrackingInfo, Tracking.hourMs]

/-- Witness for C1 at the concrete non-canned AWB "0000000000". -/
theorem C1_random_tracking_record_shape_witness :
    Tracking.isValidAWB "0000000000" = true ∧
    ("0000000000" : String) ≠ "1234567890" ∧
    ((1 : Fin 10) ≠ (0 : Fin 10)) ∧
    Tracking.fetchTrackingInfo 0 0 "0000000000" 0 1 0 (fun _ => 0) =
      .ok (Tracking.generateRandomTrackingInfo "0000000000" 0 0 1 0 (fun _ => 0)) :=
  ⟨by decide, by decide, by decide,
   (C1_random_tracking_record_shape 0 0 "0000000000" 0 1 0 (fun _ => 0)
      (by decide) (by decide) (by decide) (by decide) (by decide)).1⟩

/-- C2 counterexample: the canned table is a module-level constant, so
its clock `loadNow` is captured once at module load.  Two calls to
`fetchTrackingInfo` on the canned key "1234567890" at call times 24
hours apart return identical records — identical timestamp values and
hence identical rendered timestamp strings — refuting the claim that
two calls at different times produce different literal timestamp
strings. -/
theorem C2_canned_record_call_time_counterexample :
    (0 : Int) ≠ 86400000 ∧
    Tracking.fetchTrackingInfo 0 0 "1234567890" 0 1 0 (fun _ => 0) =
      Tracking.fetchTrackingInfo 0 86400000 "1234567890" 0 1 0 (fun _ => 0) :=
  ⟨by decide, rfl⟩

/-- C2 amended: for every AWB matching one of the three canned keys,
`fetchTrackingInfo` returns that canned record with timestamps computed
relative to module-load time; the record is frozen for the lifetime of
the module, so two calls at any two times return the identical
record. -/
theorem C2_canned_record_frozen_timestamps (loadNow t1 t2 : Int)
    (key : String) (o d : Fin 10) (td : Fin 3) (f : Nat → Fin 10)
    (hkey : key = "1234567890" ∨ key = "9876543210" ∨ key = "5678901234") :
    ∃ info, Tracking.dummyTrackingData loadNow key = some info ∧
      Tracking.fetchTrackingInfo loadNow t1 key o d td f = .ok info ∧
      Tracking.fetchTrackingInfo loadNow t2 key o d td f = .ok info := by
  rcases hkey with h | h | h <;> subst h <;>
    refine ⟨_, rfl, ?_, ?_⟩ <;>
      simp [Tracking.fetchTrackingInfo, Tracking.dummyTrackingData,
        (by decide : Tracking.isValidAWB "1234567890" = true),
        (by decide : Tracking.isValidAWB "9876543210" = true),
        (by decide : Tracking.isValidAWB "5678901234" = true)]

/-- Witness for the amended C2 at key "1234567890", load time 0 and
call times 0 and 86400000 (24 hours apart). -/
theorem C2_canned_record_frozen_timestamps_witness :
    (("1234567890" : String) = "1234567890" ∨
      ("1234567890" : String) = "9876543210" ∨
      ("1234567890" : String) = "5678901234") ∧
    ∃ info, Tracking.dummyTrackingData 0 "1234567890" = some info ∧
      Tracking.fetchTrackingInfo 0 0 "1234567890" 0 1 0 (fun _ => 0) = .ok info ∧
      Tracking.fetchTrackingInfo 0 86400000 "1234567890" 0 1 0 (fun _ => 0) =
        .ok info :=
  ⟨Or.inl rfl,
   C2_canned_record_frozen_timestamps 0 0 86400000 "1234567890" 0 1 0
     (fun _ => 0) (Or.inl rfl)⟩

/-- C3: for every input failing the 10-digit validation (the empty
string included), `fetchTrackingInfo` fails with the invalid-format
error; the result is this constant for every load clock, call clock and
random draw, so no timestamp generation and no canned lookup influence
it. -/
theorem C3_invalid_format_rejected (loadNow callNow : Int)
    (awbNumber : String) (o d : Fin 10) (td : Fin 3) (f : Nat → Fin 10)
    (h : Tracking.isValidAWB awbNumber = false) :
    Tracking.fetchTrackingInfo loadNow callNow awbNumber o d td f =
      .error .invalidFormat := by
  simp [Tracking.fetchTrackingInfo, h]

/-- Witness for C3 at the empty string. -/
theorem C3_invalid_format_rejected_witness :
    Tracking.isValidAWB "" = false ∧
    Tracking.fetchTrackingInfo 0 0 "" 0 1 0 (fun _ => 0) =
      .error .invalidFormat :=
  ⟨by decide, C3_invalid_format_rejected 0 0 "" 0 1 0 (fun _ => 0) (by decide)⟩

/-- C4: the response interceptor on a 401 error removes the stored
credential, forces navigation to the login route and propagates the
original error; on any other status it leaves the browser state
untouched and propagates the original error. -/
theorem C4_response_interceptor_unauthorized (s : ApiClient.BrowserState)
    (e : ApiClient.AxiosError) :
    (e.status = some 401 →
      ApiClient.responseErrorInterceptor e s =
        ({ s with authToken := none, href := "/login" }, e)) ∧
    (e.status ≠ some 401 →
      ApiClient.responseErrorInterceptor e s = (s, e)) := by
  constructor <;> intro h <;> simp [ApiClient.responseErrorInterceptor, h]

/-- Witness for C4: a 401 clears the token and redirects; a 500 leaves
the state untouched; the error is handed back in both cases. -/
theorem C4_response_interceptor_unauthorized_witness :
    ApiClient.responseErrorInterceptor ⟨some 401⟩ ⟨some "tok", "/home"⟩ =
      (⟨none, "/login"⟩, ⟨some 401⟩) ∧
    ApiClient.responseErrorInterceptor ⟨some 500⟩ ⟨some "tok", "/home"⟩ =
      (⟨some "tok", "/home"⟩, ⟨some 500⟩) :=
  ⟨(C4_response_interceptor_unauthorized ⟨some "tok", "/home"⟩ ⟨some 401⟩).1 rfl,
   (C4_response_interceptor_unauthorized ⟨some "tok", "/home"⟩ ⟨some 500⟩).2
     (by decide)⟩

/-- C5 counterexample: a payload whose attempt history is non-empty but
whose first date is the empty string yields `lastAttemptDate = "-"`,
not the first date, because the JS `|| '-'` fallback also fires on the
falsy empty string.  The claim that `lastAttemptDate` equals the date
field of the first element for every non-empty history is therefore
false. -/
theorem C5_last_attempt_date_counterexample :
    NDR.emptyDatePayload.attempt_history.map (fun a => a.date) = [""] ∧
    (NDR.transformNDR NDR.emptyDatePayload).lastAttemptDate = "-" ∧
    ("-" : String) ≠ "" :=
  ⟨rfl, rfl, by decide⟩

/-- C5 amended: with an empty attempt history the transform yields the
placeholder "-" and an empty attempt sequence; with a non-empty history
`lastAttemptDate` is the first date when that date is non-empty, and
the placeholder "-" when it is empty. -/
theorem C5_last_attempt_date_defaulting (d : NDR.ServerNDRData) :
    (d.attempt_history = [] →
      (NDR.transformNDR d).lastAttemptDate = "-" ∧
      (NDR.transformNDR d).deliveryAttempts = []) ∧
    (∀ a rest, d.attempt_history = a :: rest →
      (NDR.transformNDR d).lastAttemptDate =
        (if a.date = "" then "-" else a.date)) := by
  constructor
  · intro h; simp [NDR.transformNDR, h]
  · intro a rest h; simp [NDR.transformNDR, h]

/-- Witness for the amended C5 at the concrete empty-history payload. -/
theorem C5_last_attempt_date_defaulting_witness :
    NDR.samplePayload.attempt_history = [] ∧
    (NDR.transformNDR NDR.samplePayload).lastAttemptDate = "-" ∧
    (NDR.transformNDR NDR.samplePayload).deliveryAttempts = [] :=
  ⟨rfl, (C5_last_attempt_date_defaulting NDR.samplePayload).1 rfl⟩

/-- C6: the NDR transform defaults an absent `current_location` to the
zero coordinate, hard-codes the country to "India" for every payload,
and defaults an absent second address line and an absent email to the
empty string. -/
theorem C6_ndr_defaulting_rules (d : NDR.ServerNDRData) :
    (d.current_location = none →
      (NDR.transformNDR d).currentLocation = ⟨0, 0⟩) ∧
    (NDR.transformNDR d).customerDetails.country = "India" ∧
    (d.delivery_address.addressLine2 = none →
      (NDR.transformNDR d).customerDetails.address2 = "") ∧
    (d.delivery_address.email = none →
      (NDR.transformNDR d).customerDetails.email = "") := by
  refine ⟨fun h => ?_, rfl, fun h => ?_, fun h => ?_⟩ <;>
    simp [NDR.transformNDR, h]

/-- Witness for C6 at the concrete payload with the optional fields
absent. -/
theorem C6_ndr_defaulting_rules_witness :
    NDR.samplePayload.current_location = none ∧
    (NDR.transformNDR NDR.samplePayload).currentLocation = ⟨0, 0⟩ ∧
    (NDR.transformNDR NDR.samplePayload).customerDetails.country = "India" ∧
    (NDR.transformNDR NDR.samplePayload).customerDetails.address2 = "" ∧
    (NDR.transformNDR NDR.samplePayload).customerDetails.email = "" :=
  ⟨rfl, (C6_ndr_defaulting_rules NDR.samplePayload).1 rfl,
   (C6_ndr_defaulting_rules NDR.samplePayload).2.1,
   (C6_ndr_defaulting_rules NDR.samplePayload).2.2.1 rfl,
   (C6_ndr_defaulting_rules NDR.samplePayload).2.2.2 rfl⟩

/-- C7: `fetchTrackingInfo` on "1234567890" returns the canned record
with exactly 3 events and current status "In Transit"; on "9876543210"
it returns the canned record with exactly 4 events and current status
"Delivered" — for every load clock, call clock and random draw. -/
theorem C7_canned_record_lookup (loadNow callNow : Int) (o d : Fin 10)
    (td : Fin 3) (f : Nat → Fin 10) :
    (Tracking.fetchTrackingInfo loadNow callNow "1234567890" o d td f).toOption.map
      (fun r => (r.events.length, r.currentStatus)) = some (3, "In Transit") ∧
    (Tracking.fetchTrackingInfo loadNow callNow "9876543210" o d td f).toOption.map
      (fun r => (r.events.length, r.currentStatus)) = some (4, "Delivered") := by
  constructor <;>
    simp [Tracking.fetchTrackingInfo, Tracking.dummyTrackingData,
      (by decide : Tracking.isValidAWB "1234567890" = true),
      (by decide : Tracking.isValidAWB "9876543210" = true), Except.toOption]

/-- C8: every synthesized record has exactly one "Shipped" event,
between 1 and 3 "In Transit" events, no events of any other status, and
hence between 2 and 4 events in total. -/
theorem C8_event_count_bounds (awbNumber : String) (callNow : Int)
    (o d : Fin 10) (td : Fin 3) (f : Nat → Fin 10) :
    ((Tracking.generateRandomTrackingInfo awbNumber callNow o d td f).events.countP
        (fun e => e.status = "Shipped") = 1) ∧
    (1 ≤ (Tracking.generateRandomTrackingInfo awbNumber callNow o d td f).events.countP
        (fun e => e.status = "In Transit")) ∧
    ((Tracking.generateRandomTrackingInfo awbNumber callNow o d td f).events.countP
        (fun e => e.status = "In Transit") ≤ 3) ∧
    ((Tracking.generateRandomTrackingInfo awbNumber callNow o d td f).events.length =
      1 + (Tracking.generateRandomTrackingInfo awbNumber callNow o d td f).events.countP
        (fun e => e.status = "In Transit")) ∧
    (2 ≤ (Tracking.generateRandomTrackingInfo awbNumber callNow o d td f).events.length) ∧
    ((Tracking.generateRandomTrackingInfo awbNumber callNow o d td f).events.length ≤ 4) := by
  fin_cases td <;>
    simp [Tracking.generateRandomTrackingInfo, List.range_succ, List.countP,
      List.countP.go]

/-- C9: the synthesized record carries the input AWB unchanged and the
fixed courier string "RocketryBox Express". -/
theorem C9_awb_and_courier_fixed (awbNumber : String) (callNow : Int)
    (o d : Fin 10) (td : Fin 3) (f : Nat → Fin 10) :
    (Tracking.generateRandomTrackingInfo awbNumber callNow o d td f).awbNumber =
      awbNumber ∧
    (Tracking.generateRandomTrackingInfo awbNumber callNow o d td f).courier =
      "RocketryBox Express" :=
  ⟨rfl, rfl⟩

/-- C10: `deliveryAttempts` has the same length as `attempt_history`
and, position by position, copies date, time, status and reason from
the corresponding attempt, with comments equal to the agent remarks
when present and the empty string when absent. -/
theorem C10_delivery_attempts_pointwise (d : NDR.ServerNDRData) :
    (NDR.transformNDR d).deliveryAttempts.length = d.attempt_history.length ∧
    ∀ i : Nat, (NDR.transformNDR d).deliveryAttempts[i]? =
      (d.attempt_history[i]?).map (fun a =>
        { date := a.date, time := a.time, status := a.status,
          reason := a.reason,
          comments := match a.agent_remarks with
            | none => ""
            | some c => c }) := by
  constructor
  · simp [NDR.transformNDR]
  · intro i
    rcases h : d.attempt_history[i]? with _ | a
    · simp [NDR.transformNDR, h]
    · simp [NDR.transformNDR, h]
      rcases hr : a.agent_remarks with _ | c <;> simp [hr]
